import Mathlib

/-!
Shallow embedding of the clinic-ops app (src/app.py): the retry executor,
the read-through cache over the Google-Sheets table store, the holiday
calendar resolver, the reminders last-write-wins display logic, the
supervisor adherence dashboard, and the multi-step daily-entry wizard.
Machine integers are modelled as Nat, currency amounts (Python floats that
are only stored, never computed with) as ℚ, table cells as strings.
-/

namespace ClinicOps

/-! ## Calendar dates (datetime.date) -/

/-- Gregorian calendar date, mirroring Python `datetime.date`. -/
structure CalDate where
  year : Nat
  month : Nat
  day : Nat
deriving DecidableEq, Repr

/-- Gregorian leap-year rule used by `datetime.date` arithmetic. -/
def isLeapYear (y : Nat) : Bool :=
  (y % 4 == 0 && y % 100 != 0) || y % 400 == 0

/-- Number of days in a month of a given year (Gregorian). -/
def daysInMonth (y m : Nat) : Nat :=
  if m == 2 then (if isLeapYear y then 29 else 28)
  else if m == 4 || m == 6 || m == 9 || m == 11 then 30
  else 31

/-- `date.today() + timedelta(days=1)`: the next calendar day. -/
def nextDay (d : CalDate) : CalDate :=
  if d.day < daysInMonth d.year d.month then ⟨d.year, d.month, d.day + 1⟩
  else if d.month < 12 then ⟨d.year, d.month + 1, 1⟩
  else ⟨d.year + 1, 1, 1⟩

/-- Zero-pad a number to two digits, as strftime `%d`/`%m` do. -/
def pad2 (n : Nat) : String :=
  if n < 10 then "0" ++ toString n else toString n

/-- Zero-pad a year to four digits, as strftime `%Y` does. -/
def pad4 (n : Nat) : String :=
  if n < 10 then "000" ++ toString n
  else if n < 100 then "00" ++ toString n
  else if n < 1000 then "0" ++ toString n
  else toString n

/-- `strftime("%d/%m/%Y")`. -/
def fmt_dd_mm_yyyy (d : CalDate) : String :=
  pad2 d.day ++ "/" ++ pad2 d.month ++ "/" ++ pad4 d.year

/-- `strftime("%Y-%m-%d")`. -/
def fmt_yyyy_mm_dd (d : CalDate) : String :=
  pad4 d.year ++ "-" ++ pad2 d.month ++ "-" ++ pad2 d.day

/-- Split a character list at every occurrence of `sep` (the second
argument accumulates the current chunk in reverse). -/
def splitOnCharAux (sep : Char) : List Char → List Char → List (List Char)
  | [], cur => [cur.reverse]
  | c :: cs, cur =>
    if c == sep then cur.reverse :: splitOnCharAux sep cs []
    else splitOnCharAux sep cs (c :: cur)

/-- Parse a nonempty all-digit character list as a decimal number. -/
def digitsToNat (l : List Char) : Option Nat :=
  if l.isEmpty then none
  else if l.all Char.isDigit then
    some (l.foldl (fun n c => 10 * n + (c.toNat - 48)) 0)
  else none

/-- Parse `YYYY-MM-DD` from a character list: three dash-separated decimal
numbers, as `datetime.strptime(s, "%Y-%m-%d")` accepts. -/
def parseDateParts (l : List Char) : Option CalDate :=
  match (splitOnCharAux '-' l []).map digitsToNat with
  | [some y, some m, some d] => some ⟨y, m, d⟩
  | _ => none

/-- Parse a `YYYY-MM-DD` date string (as `datetime.strptime(s, "%Y-%m-%d")`
does); `none` when the string is not three dash-separated numbers. -/
def parseDate (s : String) : Option CalDate :=
  parseDateParts s.toList

/-- Derive the calendar day of a `"%Y-%m-%d %H:%M:%S"` timestamp string, as
`pd.to_datetime(ts).dt.date` does on rows this app writes. -/
def tsDay (s : String) : Option CalDate :=
  match splitOnCharAux ' ' s.toList [] with
  | t :: _ => parseDateParts t
  | [] => none

/-! ## Tabular store (worksheets read via get_all_records) -/

/-- One record of a worksheet: a mapping column-name → cell value, as
returned by `ws.get_all_records()`. -/
abbrev TableRow := List (String × String)

/-- Python `str.strip()` (and pandas `.str.strip()`): remove leading and
trailing whitespace. -/
def pyStrip (s : String) : String :=
  ⟨((s.toList.dropWhile Char.isWhitespace).reverse.dropWhile Char.isWhitespace).reverse⟩

/-- Cell lookup by column name; records produced by `get_all_records` carry
every header, so a missing key only arises for columns absent from the
sheet and reads as the empty string. -/
def getCell (r : TableRow) (c : String) : String :=
  ((r.find? (fun p => p.1 == c)).map Prod.snd).getD ""

/-- A loaded worksheet: header names plus records (a pandas DataFrame built
from `get_all_records`). -/
structure DataTable where
  cols : List String
  rows : List TableRow
deriving DecidableEq, Repr

/-! ## RetryExecutor (retry_api_call) -/

/-- Result of one remote call: a value, or a raised exception rendered as
its message string (`str(e)`). -/
inductive ApiResult (α : Type) where
  | ok : α → ApiResult α
  | err : String → ApiResult α
deriving DecidableEq, Repr

/-- Whether the first character list occurs at the start of the second. -/
def charsPrefixOf : List Char → List Char → Bool
  | [], _ => true
  | _ :: _, [] => false
  | a :: as, b :: bs => a == b && charsPrefixOf as bs

/-- Whether the first character list occurs anywhere inside the second
(Python's `in` on strings). -/
def charsInfixOf (pat : List Char) : List Char → Bool
  | [] => charsPrefixOf pat []
  | b :: bs => charsPrefixOf pat (b :: bs) || charsInfixOf pat bs

/-- The transient-error classifier of `retry_api_call`:
`"429" in str(e) or "Quota exceeded" in str(e)`. -/
def isTransient (s : String) : Bool :=
  charsInfixOf "429".toList s.toList || charsInfixOf "Quota exceeded".toList s.toList

/-- Observable outcome of running `retry_api_call`: the returned value or
raised message, the number of calls made to the wrapped operation, and the
back-off delays slept between attempts (in seconds). -/
structure RetryOutcome (α : Type) where
  result : Except String α
  attempts : Nat
  delays : List ℚ
deriving Repr

/-- The loop body of `retry_api_call`: `func` gives the result of its i-th
invocation, `delay` is the back-off base, `jitter i` is the value drawn by
`random.uniform(0, 1)` on attempt `i`, `i` is the current attempt index and
the last argument the remaining loop iterations. -/
def retryAux {α : Type} (func : Nat → ApiResult α) (delay : Nat) (jitter : Nat → ℚ)
    (i : Nat) : Nat → RetryOutcome α
  | 0 => ⟨.error "API Quota Exceeded. Please try again later.", 0, []⟩
  | n + 1 =>
    match func i with
    | .ok a => ⟨.ok a, 1, []⟩
    | .err e =>
      if isTransient e then
        let rest := retryAux func delay jitter (i + 1) n
        ⟨rest.result, rest.attempts + 1, ((delay : ℚ) * 2 ^ i + jitter i) :: rest.delays⟩
      else
        ⟨.error e, 1, []⟩

/-- `retry_api_call(func, retries, delay)` from src/app.py lines 16–28. -/
def retry_api_call {α : Type} (func : Nat → ApiResult α) (retries : Nat) (delay : Nat)
    (jitter : Nat → ℚ) : RetryOutcome α :=
  retryAux func delay jitter 0 retries

/-! ## CalendarResolver (is_holiday_tomorrow, src/app.py lines 120–140) -/

/-- `is_holiday_tomorrow(center_name)`: `today` is the wall-clock date and
`holidays` the loaded `Holidays` table (`none` when the worksheet could not
be read, in which case `load_data` stored an empty DataFrame — modelled the
same as absent). Returns `false` rather than raising on absent or
malformed data; the source's `try/except` never fires in the model because
cell access is total. -/
def is_holiday_tomorrow (today : CalDate) (holidays : Option DataTable)
    (center_name : String) : Bool :=
  match holidays with
  | none => false
  | some df =>
    if df.rows.isEmpty then false
    else if !(df.cols.contains "Date") || !(df.cols.contains "Center") then false
    else
      let tomorrow := nextDay today
      let f1 := fmt_dd_mm_yyyy tomorrow
      let f2 := fmt_yyyy_mm_dd tomorrow
      df.rows.any (fun r =>
        (pyStrip (getCell r "Date") == f1 || pyStrip (getCell r "Date") == f2)
          && getCell r "Center" == center_name)

/-! ## Reminders display (show_reminders, src/app.py lines 425–442) -/

/-- The six reminder types of the `defaults` dict, in source order. -/
def reminderTypes : List String :=
  ["Electricity Bill", "Water Bill", "Rent", "SIP", "ISP1", "ISP2"]

/-- Association-list lookup by key (first match wins). -/
def alookup {α : Type} (l : List (String × α)) (k : String) : Option α :=
  (l.find? (fun p => p.1 == k)).map Prod.snd

/-- One iteration of the `for index, row in center_rem.iterrows()` loop:
if the row's `Type` is a tracked reminder type, try to parse its `Due_Date`
as `%Y-%m-%d` and overwrite the stored default on success; the bare
`except: pass` keeps the previous value on a parse failure. -/
def updDefaults (acc : List (String × Option CalDate)) (r : TableRow) :
    List (String × Option CalDate) :=
  acc.map (fun p =>
    if p.1 == getCell r "Type" then
      match parseDate (getCell r "Due_Date") with
      | some d => (p.1, some d)
      | none => p
    else p)

/-- The `defaults` mapping computed by `show_reminders` for a center before
the form is rendered: each tracked type's currently displayed due date. -/
def remindersDefaults (df_rem : Option DataTable) (center : String) :
    List (String × Option CalDate) :=
  let init := reminderTypes.map (fun t => (t, (none : Option CalDate)))
  match df_rem with
  | none => init
  | some df =>
    if df.rows.isEmpty then init
    else if df.cols.contains "Center" && df.cols.contains "Type" then
      (df.rows.filter (fun r => getCell r "Center" == center)).foldl updDefaults init
    else init

/-! ## Supervisor dashboard tab 1 (show_supervisor_dashboard, lines 498–521) -/

/-- First-occurrence deduplication with an accumulator of already seen
names. -/
def uniqueFirstAux (seen : List String) : List String → List String
  | [] => []
  | a :: l =>
    if seen.contains a then uniqueFirstAux seen l
    else a :: uniqueFirstAux (a :: seen) l

/-- First-occurrence deduplication, as pandas `Series.unique()`. -/
def uniqueFirst (l : List String) : List String :=
  uniqueFirstAux [] l

/-- `all_centers`: unique `Center_Name`s of users whose `Role` is
`'Centre Manager'`; empty when the `Users` table is absent or empty. -/
def allCenters (users : Option DataTable) : List String :=
  match users with
  | none => []
  | some df =>
    if df.rows.isEmpty then []
    else uniqueFirst ((df.rows.filter (fun r => getCell r "Role" == "Centre Manager")).map
      (fun r => getCell r "Center_Name"))

/-- The record list behind `day_logs`: log rows whose timestamp's derived
calendar day equals the selected date. -/
def dayLogs (logs : Option DataTable) (date_sel : CalDate) : List TableRow :=
  match logs with
  | none => []
  | some df =>
    if df.rows.isEmpty then []
    else df.rows.filter (fun r => tsDay (getCell r "Timestamp") == some date_sel)

/-- Status assigned to one center on the selected date. -/
def centerStatus (logs : Option DataTable) (date_sel : CalDate) (center : String) :
    String :=
  if ((dayLogs logs date_sel).filter (fun r => getCell r "Center_Name" == center)).isEmpty
  then "❌ Missing" else "✅ Reported"

/-- `status_rows`: one `(Centre, Status)` record per known center. -/
def statusRows (logs users : Option DataTable) (date_sel : CalDate) :
    List (String × String) :=
  (allCenters users).map (fun c => (c, centerStatus logs date_sel c))

/-! ## Daily-entry wizard (show_daily_reporting, src/app.py lines 144–318)

Session state `daily_step` / `daily_data` plus the rows the submit handler
appends to `Daily_Logs`. Cell values are strings, counters (Nat) or
currency amounts (Python floats that are only stored, modelled as ℚ). -/

/-- A value held in `st.session_state['daily_data']` or written into a row. -/
inductive FieldVal where
  | s : String → FieldVal
  | n : Nat → FieldVal
  | q : ℚ → FieldVal
deriving DecidableEq, Repr

/-- Association-list lookup by key over field values. -/
def flookup (l : List (String × FieldVal)) (k : String) : Option FieldVal :=
  (l.find? (fun p => p.1 == k)).map Prod.snd

/-- Python `dict.update`: keys of `new` overwrite those of `d`, other keys
are kept (represented so that `flookup` finds `new` first). -/
def dictUpdate (d new : List (String × FieldVal)) : List (String × FieldVal) :=
  new ++ d.filter (fun p => !(new.any (fun q' => q'.1 == p.1)))

/-- `d.get(k, v)`. -/
def dget (d : List (String × FieldVal)) (k : String) (v : FieldVal) : FieldVal :=
  (flookup d k).getD v

/-- `server_val` as computed in the step-1 `Next` handler (lines 164–176):
the shutdown checkbox exists only when tomorrow is a detected holiday, and
the value is forced to `"N/A"` when it is not. -/
def serverVal (is_holiday server_cb : Bool) : String :=
  let server_shutdown := if is_holiday then server_cb else false
  let v := if server_shutdown then "YES" else "NO"
  if is_holiday then v else "N/A"

/-- Wizard session state plus the rows appended to `Daily_Logs` so far. -/
structure WizState where
  daily_step : Nat
  daily_data : List (String × FieldVal)
  rows : List (List FieldVal)
deriving DecidableEq, Repr

/-- Fresh session: `daily_step = 1`, empty accumulator, nothing written. -/
def initWiz : WizState := ⟨1, [], []⟩

/-- One user interaction with the wizard. `next1` carries the holiday flag
reported by `is_holiday_tomorrow` and the two step-1 checkboxes; `next2`
the four step-2 amounts; `next3` the nine step-3 counters; `submitEv` the
step-4 fields, the server timestamp and whether the wrapped
`ws.append_row` call succeeded (`false` = the pipeline raised). -/
inductive WizEvent where
  | next1 (is_holiday offline_cb server_cb : Bool)
  | next2 (cash_dep cash_rec upi_amt card_amt : ℚ)
  | next3 (rec_bill phar_bill lab_bill phys_bill rebook tele_fol conf_call def_pat can_pat : Nat)
  | back (fromStep : Nat)
  | submitEv (tot_pat new_pat walk_pat reviews : Nat) (notes ts username center : String)
      (writeOk : Bool)
deriving DecidableEq, Repr

/-- `row_data`, the 23-column positional row built by `_submit`
(lines 278–306), from the accumulator and the step-4 widget values. -/
def buildRow (d : List (String × FieldVal)) (tot_pat new_pat walk_pat reviews : Nat)
    (notes ts username center : String) : List FieldVal :=
  [.s ts, .s username, .s center,
   dget d "offline_backup" (.s "NO"),
   dget d "server_shutdown" (.s "N/A"),
   dget d "cash_deposit" (.q 0),
   dget d "cash_received" (.q 0),
   dget d "upi_amount" (.q 0),
   dget d "card_amount" (.q 0),
   dget d "bill_recep" (.n 0),
   dget d "bill_phar" (.n 0),
   dget d "bill_lab" (.n 0),
   dget d "bill_phys" (.n 0),
   dget d "cnt_rebook" (.n 0),
   dget d "cnt_tele" (.n 0),
   dget d "cnt_conf" (.n 0),
   dget d "cnt_def" (.n 0),
   dget d "cnt_can" (.n 0),
   .n tot_pat, .n new_pat, .n walk_pat, .n reviews, .s notes]

/-- The wizard transition function. Each button exists only on its own
step's page, so an event fired at any other step leaves the state
unchanged. `Back` never touches the accumulator; a failed submit leaves
the whole state unchanged; a successful submit appends the row, then
resets to step 1 with a cleared accumulator. -/
def wizStep (s : WizState) : WizEvent → WizState
  | .next1 is_holiday offline_cb server_cb =>
    if s.daily_step == 1 then
      { s with
        daily_step := 2
        daily_data := dictUpdate s.daily_data
          [("offline_backup", .s (if offline_cb then "YES" else "NO")),
           ("server_shutdown", .s (serverVal is_holiday server_cb))] }
    else s
  | .next2 cash_dep cash_rec upi_amt card_amt =>
    if s.daily_step == 2 then
      { s with
        daily_step := 3
        daily_data := dictUpdate s.daily_data
          [("cash_deposit", .q cash_dep), ("cash_received", .q cash_rec),
           ("upi_amount", .q upi_amt), ("card_amount", .q card_amt)] }
    else s
  | .next3 rec_bill phar_bill lab_bill phys_bill rebook tele_fol conf_call def_pat can_pat =>
    if s.daily_step == 3 then
      { s with
        daily_step := 4
        daily_data := dictUpdate s.daily_data
          [("bill_recep", .n rec_bill), ("bill_phar", .n phar_bill),
           ("bill_lab", .n lab_bill), ("bill_phys", .n phys_bill),
           ("cnt_rebook", .n rebook), ("cnt_tele", .n tele_fol),
           ("cnt_conf", .n conf_call), ("cnt_def", .n def_pat),
           ("cnt_can", .n can_pat)] }
    else s
  | .back fromStep =>
    if s.daily_step == fromStep && (fromStep == 2 || fromStep == 3 || fromStep == 4) then
      { s with daily_step := s.daily_step - 1 }
    else s
  | .submitEv tot_pat new_pat walk_pat reviews notes ts username center writeOk =>
    if s.daily_step == 4 then
      if writeOk then
        { daily_step := 1
          daily_data := []
          rows := s.rows ++ [buildRow s.daily_data tot_pat new_pat walk_pat reviews
            notes ts username center] }
      else s
    else s

/-- Run a sequence of interactions. -/
def wizRun (s : WizState) : List WizEvent → WizState
  | [] => s
  | e :: es => wizRun (wizStep s e) es

/-! ## Read-through cache over the table store (load_data / st.cache_data) -/

/-- The remote spreadsheet: worksheet name → its appended records. -/
abbrev Store := List (String × List TableRow)

/-- `ws.append_row` on one worksheet of the spreadsheet (the worksheet is
created when absent, as `get_or_create_worksheet` does). -/
def storeAppend (st : Store) (tab : String) (r : TableRow) : Store :=
  if st.any (fun p => p.1 == tab) then
    st.map (fun p => if p.1 == tab then (p.1, p.2 ++ [r]) else p)
  else st ++ [(tab, [r])]

/-- App-level state: the remote store and the `st.cache_data` snapshot held
for `load_data` (`none` = invalidated or expired). -/
structure AppEnv where
  store : Store
  cache : Option Store
deriving DecidableEq, Repr

/-- `load_data()` within the TTL window: return the cached snapshot on a
hit; on a miss fetch the live store and cache it. -/
def load_data (env : AppEnv) : Store × AppEnv :=
  match env.cache with
  | some snap => (snap, env)
  | none => (env.store, { env with cache := some env.store })

/-- Daily-log submit success path (lines 309–316): `retry_api_call(_submit)`
then `st.cache_data.clear()`. On failure nothing was appended and the
cache is untouched. -/
def submit_daily_log (env : AppEnv) (r : TableRow) (writeOk : Bool) : AppEnv :=
  if writeOk then { store := storeAppend env.store "Daily_Logs" r, cache := none }
  else env

/-- Incident report success path (lines 377–384): append then clear. -/
def report_incident (env : AppEnv) (r : TableRow) (writeOk : Bool) : AppEnv :=
  if writeOk then { store := storeAppend env.store "Incidents" r, cache := none }
  else env

/-- Service-call log path in `show_contact_us` (lines 411–423):
`retry_api_call(_log_call)` then only a success message — the source never
calls `st.cache_data.clear()` here. -/
def log_service_call (env : AppEnv) (r : TableRow) (writeOk : Bool) : AppEnv :=
  if writeOk then { env with store := storeAppend env.store "Service_Logs" r }
  else env

/-- Reminders update success path (lines 461–466): append the dated rows
then clear the cache. -/
def update_reminders (env : AppEnv) (rs : List TableRow) (writeOk : Bool) : AppEnv :=
  if writeOk then
    { store := rs.foldl (fun st r => storeAppend st "Reminders" r) env.store, cache := none }
  else env

/-- Holiday add success path (lines 487–492): append then clear. -/
def add_holiday (env : AppEnv) (r : TableRow) (writeOk : Bool) : AppEnv :=
  if writeOk then { store := storeAppend env.store "Holidays" r, cache := none }
  else env

/-- Service-contact save success path (lines 556–561): append then clear. -/
def save_contact (env : AppEnv) (r : TableRow) (writeOk : Bool) : AppEnv :=
  if writeOk then { store := storeAppend env.store "Service_Contacts" r, cache := none }
  else env

/-! ## Sample data (used to instantiate theorems on concrete inputs) -/

/-- A remote call that hits the rate limit twice and then succeeds. -/
def sampleFlaky : Nat → ApiResult Nat :=
  fun i => if i < 2 then .err "429 rate limited" else .ok 7

/-- A remote call that always fails with a quota error. -/
def sampleAlwaysQuota : Nat → ApiResult Nat :=
  fun _ => .err "Quota exceeded for metric sheets.googleapis.com"

/-- A remote call that fails with a non-transient error. -/
def sampleBroken : Nat → ApiResult Nat :=
  fun _ => .err "PermissionError: the caller does not have permission"

/-- A `Users` worksheet with two centre managers (one listed twice) and a
supervisor. -/
def sampleUsers : DataTable :=
  ⟨["Username", "Password", "Role", "Center_Name"],
   [[("Username", "a"), ("Password", "pa"), ("Role", "Centre Manager"), ("Center_Name", "C1")],
    [("Username", "b"), ("Password", "pb"), ("Role", "Centre Manager"), ("Center_Name", "C2")],
    [("Username", "s"), ("Password", "ps"), ("Role", "Supervisor"), ("Center_Name", "HQ")],
    [("Username", "a2"), ("Password", "pa2"), ("Role", "Centre Manager"), ("Center_Name", "C1")]]⟩

/-- A `Daily_Logs` worksheet with a single submission by C1. -/
def sampleLogs : DataTable :=
  ⟨["Timestamp", "Username", "Center_Name"],
   [[("Timestamp", "2026-10-12 20:30:00"), ("Username", "a"), ("Center_Name", "C1")]]⟩

/-- A `Holidays` worksheet whose single row names tomorrow (relative to
2026-10-12) in `DD/MM/YYYY` form with surrounding whitespace. -/
def sampleHolidays : DataTable :=
  ⟨["Date", "Name", "Center"],
   [[("Date", " 13/10/2026 "), ("Name", "Festival"), ("Center", "C1")]]⟩

/-- A `Reminders` worksheet where C1's `Rent` due date was appended twice. -/
def sampleReminders : DataTable :=
  ⟨["Center", "Type", "Due_Date", "Updated"],
   [[("Center", "C1"), ("Type", "Rent"), ("Due_Date", "2026-01-01"), ("Updated", "2025-12-01")],
    [("Center", "C1"), ("Type", "Rent"), ("Due_Date", "2026-02-02"), ("Updated", "2026-01-05")],
    [("Center", "C2"), ("Type", "Rent"), ("Due_Date", "2026-03-03"), ("Updated", "2026-02-01")]]⟩

/-- A service-call log row as `_log_call` appends it. -/
def sampleSvcRow : TableRow :=
  [("Timestamp", "2026-10-12 21:00:00"), ("Center", "C1"),
   ("Service", "AC Service"), ("Phone", "9717096659")]

/-- An app state whose cache was freshly populated by a read: the snapshot
equals the live store, and the TTL has not elapsed. -/
def sampleWarmEnv : AppEnv :=
  { store := [("Service_Logs", [])], cache := some [("Service_Logs", [])] }

/-- Whether an event is the step-1 `Next` click (the only event that
records the holiday flag reported by `is_holiday_tomorrow`). -/
def isNext1 : WizEvent → Bool
  | .next1 _ _ _ => true
  | _ => false

/-- Projection of an optional table to its records (absent = no records),
used to phrase theorems about row existence. -/
def tableRows (t : Option DataTable) : List TableRow :=
  match t with
  | none => []
  | some df => df.rows

/-! # Theorems -/

/-! ## Helper lemmas -/

theorem serverVal_eq (h cb : Bool) :
    serverVal h cb = if h then (if cb then "YES" else "NO") else "N/A" := by
  cases h <;> cases cb <;> rfl

/-! ## Claim C2 -/

/-- Claim C2: for an operation wrapped by `retry_api_call` (3 retries,
base delay 2) that fails with a transient (429/quota) error on its first
two attempts and succeeds on the third, the executor returns that success
having made exactly 3 calls; for an operation failing transiently on every
attempt (4 or more consecutive failures available), it stops after exactly
3 calls and raises the terminal quota-exceeded error. -/
theorem retry_succeeds_third_and_exhausts_after_three {α : Type}
    (f g : Nat → ApiResult α) (jf jg : Nat → ℚ) (v : α) (e0 e1 : String)
    (hf0 : f 0 = .err e0) (ht0 : isTransient e0 = true)
    (hf1 : f 1 = .err e1) (ht1 : isTransient e1 = true)
    (hf2 : f 2 = .ok v)
    (hg : ∀ i, i < 3 → ∃ e, g i = .err e ∧ isTransient e = true) :
    (retry_api_call f 3 2 jf).result = .ok v ∧
    (retry_api_call f 3 2 jf).attempts = 3 ∧
    (retry_api_call g 3 2 jg).result = .error "API Quota Exceeded. Please try again later." ∧
    (retry_api_call g 3 2 jg).attempts = 3 := by
  obtain ⟨a0, hg0, hgt0⟩ := hg 0 (by norm_num)
  obtain ⟨a1, hg1, hgt1⟩ := hg 1 (by norm_num)
  obtain ⟨a2, hg2, hgt2⟩ := hg 2 (by norm_num)
  refine ⟨?_, ?_, ?_, ?_⟩ <;>
    simp [retry_api_call, retryAux, hf0, hf1, hf2, ht0, ht1, hg0, hg1, hg2,
      hgt0, hgt1, hgt2]

/-- Witness for C2 at the concrete flaky and always-failing operations. -/
theorem retry_succeeds_third_and_exhausts_after_three_witness :
    (retry_api_call sampleFlaky 3 2 (fun _ => 0)).result = .ok 7 ∧
    (retry_api_call sampleFlaky 3 2 (fun _ => 0)).attempts = 3 ∧
    (retry_api_call sampleAlwaysQuota 3 2 (fun _ => 0)).result
      = .error "API Quota Exceeded. Please try again later." ∧
    (retry_api_call sampleAlwaysQuota 3 2 (fun _ => 0)).attempts = 3 :=
  retry_succeeds_third_and_exhausts_after_three sampleFlaky sampleAlwaysQuota
    (fun _ => 0) (fun _ => 0) 7 "429 rate limited" "429 rate limited"
    rfl (by decide) rfl (by decide) rfl
    (fun i _ => ⟨"Quota exceeded for metric sheets.googleapis.com", rfl, by decide⟩)

/-! ## Claim C3 -/

/-- Claim C3: an operation whose failure message contains neither "429"
nor "Quota exceeded" is re-raised by `retry_api_call` on the first
attempt: exactly one call is made and no back-off delay is slept. -/
theorem retry_nontransient_raises_immediately {α : Type}
    (f : Nat → ApiResult α) (j : Nat → ℚ) (e : String)
    (hf : f 0 = .err e) (hnt : isTransient e = false) :
    (retry_api_call f 3 2 j).result = .error e ∧
    (retry_api_call f 3 2 j).attempts = 1 ∧
    (retry_api_call f 3 2 j).delays = [] := by
  refine ⟨?_, ?_, ?_⟩ <;> simp [retry_api_call, retryAux, hf, hnt]

/-- Witness for C3 at a concrete permission error. -/
theorem retry_nontransient_raises_immediately_witness :
    (retry_api_call sampleBroken 3 2 (fun _ => 0)).result
      = .error "PermissionError: the caller does not have permission" ∧
    (retry_api_call sampleBroken 3 2 (fun _ => 0)).attempts = 1 ∧
    (retry_api_call sampleBroken 3 2 (fun _ => 0)).delays = [] :=
  retry_nontransient_raises_immediately sampleBroken (fun _ => 0)
    "PermissionError: the caller does not have permission" rfl (by decide)

/-! ## Claim C1 -/

/-- Claim C1 fails on the code: the service-call write in `show_contact_us`
never invalidates the cache. At a concrete warm-cache state, a successful
service-call log appends the row to the live store, leaves the cached
snapshot in place, and the next `load_data` returns the stale snapshot
without the newly appended row. -/
theorem service_call_write_leaves_stale_cache :
    (log_service_call sampleWarmEnv sampleSvcRow true).store
        = [("Service_Logs", [sampleSvcRow])] ∧
    (log_service_call sampleWarmEnv sampleSvcRow true).cache
        = some [("Service_Logs", [])] ∧
    (load_data (log_service_call sampleWarmEnv sampleSvcRow true)).1
        = [("Service_Logs", [])] := by
  decide

/-- The five other successful writes do explicitly invalidate the cache
before returning, so the next read falls through to the live store. -/
theorem other_writes_invalidate_cache (env : AppEnv) (r : TableRow)
    (rs : List TableRow) :
    (submit_daily_log env r true).cache = none ∧
    (report_incident env r true).cache = none ∧
    (update_reminders env rs true).cache = none ∧
    (add_holiday env r true).cache = none ∧
    (save_contact env r true).cache = none ∧
    (load_data (submit_daily_log env r true)).1 = (submit_daily_log env r true).store := by
  refine ⟨rfl, rfl, rfl, rfl, rfl, ?_⟩
  simp [load_data, submit_daily_log]

/-- Witness for the invalidation theorem at the concrete warm-cache state. -/
theorem other_writes_invalidate_cache_witness :
    (submit_daily_log sampleWarmEnv sampleSvcRow true).cache = none ∧
    (report_incident sampleWarmEnv sampleSvcRow true).cache = none ∧
    (update_reminders sampleWarmEnv [sampleSvcRow] true).cache = none ∧
    (add_holiday sampleWarmEnv sampleSvcRow true).cache = none ∧
    (save_contact sampleWarmEnv sampleSvcRow true).cache = none ∧
    (load_data (submit_daily_log sampleWarmEnv sampleSvcRow true)).1
      = (submit_daily_log sampleWarmEnv sampleSvcRow true).store :=
  other_writes_invalidate_cache sampleWarmEnv sampleSvcRow [sampleSvcRow]

/-! ## Claim C4 -/

/-- Claim C4: at the final wizard step, a failed submit leaves the step
pointer, the accumulator and the written rows entirely unchanged; a
successful submit first appends the row built from the current
accumulator and only then resets to step 1 with a cleared accumulator. -/
theorem daily_submit_reset_only_after_success (s : WizState) (hs : s.daily_step = 4)
    (tot_pat new_pat walk_pat reviews : Nat) (notes ts username center : String) :
    wizStep s (.submitEv tot_pat new_pat walk_pat reviews notes ts username center false) = s ∧
    (wizStep s (.submitEv tot_pat new_pat walk_pat reviews notes ts username center true)).daily_step = 1 ∧
    (wizStep s (.submitEv tot_pat new_pat walk_pat reviews notes ts username center true)).daily_data = [] ∧
    (wizStep s (.submitEv tot_pat new_pat walk_pat reviews notes ts username center true)).rows
      = s.rows ++ [buildRow s.daily_data tot_pat new_pat walk_pat reviews notes ts username center] := by
  refine ⟨?_, ?_, ?_, ?_⟩ <;> simp [wizStep, hs]

/-- Witness for C4 at a concrete step-4 state reached through the wizard. -/
theorem daily_submit_reset_only_after_success_witness :
    (wizRun initWiz [.next1 true true true, .next2 1 2 3 4,
        .next3 1 1 1 1 1 1 1 1 1]).daily_step = 4 ∧
    wizStep (wizRun initWiz [.next1 true true true, .next2 1 2 3 4,
        .next3 1 1 1 1 1 1 1 1 1]) (.submitEv 9 8 7 6 "n" "t" "u" "c" false)
      = wizRun initWiz [.next1 true true true, .next2 1 2 3 4,
          .next3 1 1 1 1 1 1 1 1 1] := by
  refine ⟨by decide, ?_⟩
  exact (daily_submit_reset_only_after_success _ (by decide) 9 8 7 6 "n" "t" "u" "c").1

/-! ## Claim C5 -/

/-- Claim C5 fails on the code: from step 1 with an empty accumulator,
`Next, Next, Back` leaves the wizard on step 2 (not step 1), and the
step-2 answers remain in the accumulator rather than being discarded. -/
theorem next_next_back_counterexample :
    (wizRun initWiz [.next1 false true false, .next2 1 2 3 4, .back 3]).daily_step ≠ 1 ∧
    flookup (wizRun initWiz [.next1 false true false, .next2 1 2 3 4, .back 3]).daily_data
      "cash_deposit" ≠ none := by
  decide

/-- Claim C5 as amended: from step 1 with an empty accumulator,
`Next, Next, Back` lands on step 2 with both the step-1 answers and the
step-2 answers intact in the accumulator. -/
theorem next_next_back_lands_step_two (ih ob scb : Bool) (c1 c2 c3 c4 : ℚ) :
    (wizRun initWiz [.next1 ih ob scb, .next2 c1 c2 c3 c4, .back 3]).daily_step = 2 ∧
    flookup (wizRun initWiz [.next1 ih ob scb, .next2 c1 c2 c3 c4, .back 3]).daily_data
      "offline_backup" = some (.s (if ob then "YES" else "NO")) ∧
    flookup (wizRun initWiz [.next1 ih ob scb, .next2 c1 c2 c3 c4, .back 3]).daily_data
      "server_shutdown" = some (.s (serverVal ih scb)) ∧
    flookup (wizRun initWiz [.next1 ih ob scb, .next2 c1 c2 c3 c4, .back 3]).daily_data
      "cash_deposit" = some (.q c1) ∧
    flookup (wizRun initWiz [.next1 ih ob scb, .next2 c1 c2 c3 c4, .back 3]).daily_data
      "card_amount" = some (.q c4) := by
  refine ⟨rfl, ?_, ?_, ?_, ?_⟩ <;>
    simp [wizRun, wizStep, initWiz, dictUpdate, flookup, List.find?_append, List.find?]

/-! ## Claim C6 -/

/-- Claim C6: for every entity and every wall-clock date, the calendar
resolver answers `false` (it is a total function, so it never raises) when
the `Holidays` table is absent, has no rows, lacks the `Date` or `Center`
column, or contains no row whose `Center` is this entity. -/
theorem holiday_false_on_missing_or_unmatched (today : CalDate) (center : String)
    (holidays : Option DataTable)
    (h : holidays = none ∨ ∃ df, holidays = some df ∧
      (df.rows = [] ∨ "Date" ∉ df.cols ∨ "Center" ∉ df.cols ∨
        ∀ r ∈ df.rows, getCell r "Center" ≠ center)) :
    is_holiday_tomorrow today holidays center = false := by
  rcases h with h | ⟨df, rfl, hcase⟩
  · subst h; rfl
  · rcases hcase with h1 | h2 | h3 | h4
    · simp [is_holiday_tomorrow, h1]
    · simp only [is_holiday_tomorrow]
      split
      · rfl
      · split
        · rfl
        · rename_i hcond
          rw [Bool.not_eq_true, Bool.or_eq_false_iff] at hcond
          exact absurd (by simpa using hcond.1) h2
    · simp only [is_holiday_tomorrow]
      split
      · rfl
      · split
        · rfl
        · rename_i hcond
          rw [Bool.not_eq_true, Bool.or_eq_false_iff] at hcond
          exact absurd (by simpa using hcond.2) h3
    · have hany : df.rows.any (fun r =>
          (pyStrip (getCell r "Date") == fmt_dd_mm_yyyy (nextDay today)
            || pyStrip (getCell r "Date") == fmt_yyyy_mm_dd (nextDay today))
          && getCell r "Center" == center) = false := by
        rw [List.any_eq_false]
        intro r hr
        simp [h4 r hr]
      simp [is_holiday_tomorrow, hany]

/-- Witness for C6: the sample holiday table has no row for center C2. -/
theorem holiday_false_on_missing_or_unmatched_witness :
    is_holiday_tomorrow ⟨2026, 10, 12⟩ (some sampleHolidays) "C2" = false :=
  holiday_false_on_missing_or_unmatched ⟨2026, 10, 12⟩ "C2" (some sampleHolidays)
    (Or.inr ⟨sampleHolidays, rfl, Or.inr (Or.inr (Or.inr (by decide)))⟩)

/-! ## Claim C7 -/

/-- Claim C7: the resolver answers `true` whenever the `Holidays` table has
both expected columns and some row whose `Center` is the entity and whose
`Date` cell, after trimming surrounding whitespace, renders tomorrow's
date (the successor of the current wall-clock date) in either supported
format. -/
theorem holiday_true_on_matching_row (today : CalDate) (center : String)
    (df : DataTable) (r : TableRow)
    (hD : "Date" ∈ df.cols) (hC : "Center" ∈ df.cols)
    (hr : r ∈ df.rows) (hcen : getCell r "Center" = center)
    (hdate : pyStrip (getCell r "Date") = fmt_dd_mm_yyyy (nextDay today) ∨
      pyStrip (getCell r "Date") = fmt_yyyy_mm_dd (nextDay today)) :
    is_holiday_tomorrow today (some df) center = true := by
  have hne : df.rows.isEmpty = false := by
    cases h' : df.rows with
    | nil => rw [h'] at hr; cases hr
    | cons a l => rfl
  have hany : df.rows.any (fun r =>
      (pyStrip (getCell r "Date") == fmt_dd_mm_yyyy (nextDay today)
        || pyStrip (getCell r "Date") == fmt_yyyy_mm_dd (nextDay today))
      && getCell r "Center" == center) = true := by
    refine List.any_eq_true.mpr ⟨r, hr, ?_⟩
    rcases hdate with hd | hd <;> simp [hd, hcen]
  simp [is_holiday_tomorrow, hne, hany]
  exact ⟨hD, hC⟩

/-- Witness for C7: the sample holiday row carries " 13/10/2026 " for C1,
and tomorrow relative to 2026-10-12 is 13/10/2026. -/
theorem holiday_true_on_matching_row_witness :
    is_holiday_tomorrow ⟨2026, 10, 12⟩ (some sampleHolidays) "C1" = true :=
  holiday_true_on_matching_row ⟨2026, 10, 12⟩ "C1" sampleHolidays
    [("Date", " 13/10/2026 "), ("Name", "Festival"), ("Center", "C1")]
    (by decide) (by decide) (by decide) (by decide) (Or.inl (by decide))

/-! ## Claim C8 -/

theorem filter_not_isEmpty_iff {α : Type} (L : List α) (p : α → Bool) :
    ((L.filter p).isEmpty = false) ↔ ∃ a ∈ L, p a = true := by
  induction L with
  | nil => simp
  | cons a l ih =>
    cases hp : p a with
    | true =>
      simp only [List.filter_cons, hp, if_true, List.isEmpty_cons]
      constructor
      · intro _; exact ⟨a, List.mem_cons_self a l, hp⟩
      · intro _; trivial
    | false =>
      simp only [List.filter_cons, hp, Bool.false_eq_true, if_false]
      rw [ih]
      constructor
      · rintro ⟨x, hx, hpx⟩; exact ⟨x, List.mem_cons_of_mem a hx, hpx⟩
      · rintro ⟨x, hx, hpx⟩
        rcases List.mem_cons.mp hx with rfl | hx'
        · rw [hp] at hpx; cases hpx
        · exact ⟨x, hx', hpx⟩

theorem dayLogs_eq_filter (logs : Option DataTable) (d : CalDate) :
    dayLogs logs d
      = (tableRows logs).filter (fun r => tsDay (getCell r "Timestamp") == some d) := by
  cases logs with
  | none => rfl
  | some df =>
    cases h : df.rows with
    | nil => simp [dayLogs, tableRows, h]
    | cons a l => simp [dayLogs, tableRows, h]

theorem status_count {α : Type} (l : List α) (f : α → String)
    (hf : ∀ c, f c = "✅ Reported" ∨ f c = "❌ Missing") :
    ((l.map (fun c => (c, f c))).filter (fun p => p.2 == "✅ Reported")).length
      + ((l.map (fun c => (c, f c))).filter (fun p => p.2 == "❌ Missing")).length
      = l.length := by
  induction l with
  | nil => rfl
  | cons a l ih =>
    rcases hf a with h | h <;> simp [List.filter_cons, h] <;> omega

/-- Claim C8: on the supervisor dashboard, a center is reported `Compliant`
(✅ Reported) for the selected date exactly when some `Daily_Logs` row for
that center has a timestamp whose derived calendar day equals that date,
and `Missing` otherwise; the ✅ and ❌ row counts always sum to
|entity set| × |date range| (the dashboard queries the single selected
date, so the date range is `[date_sel]`). -/
theorem dashboard_status_iff_and_counts (logs users : Option DataTable)
    (date_sel : CalDate) :
    (∀ c ∈ allCenters users,
      (centerStatus logs date_sel c = "✅ Reported" ↔
        ∃ r ∈ tableRows logs, tsDay (getCell r "Timestamp") = some date_sel ∧
          getCell r "Center_Name" = c)) ∧
    ((statusRows logs users date_sel).filter (fun p => p.2 == "✅ Reported")).length
      + ((statusRows logs users date_sel).filter (fun p => p.2 == "❌ Missing")).length
      = (allCenters users).length * ([date_sel] : List CalDate).length := by
  constructor
  · intro c _
    have h1 : centerStatus logs date_sel c = "✅ Reported" ↔
        ((dayLogs logs date_sel).filter
          (fun r => getCell r "Center_Name" == c)).isEmpty = false := by
      unfold centerStatus
      split
      · rename_i hemp
        constructor
        · intro h; exact absurd h (by decide)
        · intro hfe; rw [hemp] at hfe; cases hfe
      · rename_i hemp
        constructor
        · intro _; simpa using hemp
        · intro _; rfl
    rw [h1, filter_not_isEmpty_iff, dayLogs_eq_filter]
    constructor
    · rintro ⟨r, hrm, hpr⟩
      rw [List.mem_filter] at hrm
      exact ⟨r, hrm.1, by simpa using hrm.2, by simpa using hpr⟩
    · rintro ⟨r, hrm, hts, hcn⟩
      refine ⟨r, ?_, by simpa using hcn⟩
      rw [List.mem_filter]
      exact ⟨hrm, by simpa using hts⟩
  · have hc : ∀ c, centerStatus logs date_sel c = "✅ Reported" ∨
        centerStatus logs date_sel c = "❌ Missing" := by
      intro c
      unfold centerStatus
      split
      · exact Or.inr rfl
      · exact Or.inl rfl
    have := status_count (allCenters users) (centerStatus logs date_sel) hc
    simpa [statusRows] using this

/-- Witness for C8 at the sample `Users` and `Daily_Logs` tables: C1's
single log on 2026-10-12 makes it Reported, and the two statuses cover
the two distinct centre managers. -/
theorem dashboard_status_iff_and_counts_witness :
    ("C1" ∈ allCenters (some sampleUsers)) ∧
    (centerStatus (some sampleLogs) ⟨2026, 10, 12⟩ "C1" = "✅ Reported" ↔
      ∃ r ∈ tableRows (some sampleLogs),
        tsDay (getCell r "Timestamp") = some ⟨2026, 10, 12⟩ ∧
          getCell r "Center_Name" = "C1") ∧
    ((statusRows (some sampleLogs) (some sampleUsers) ⟨2026, 10, 12⟩).filter
        (fun p => p.2 == "✅ Reported")).length
      + ((statusRows (some sampleLogs) (some sampleUsers) ⟨2026, 10, 12⟩).filter
        (fun p => p.2 == "❌ Missing")).length
      = (allCenters (some sampleUsers)).length * ([⟨2026, 10, 12⟩] : List CalDate).length := by
  have h := dashboard_status_iff_and_counts (some sampleLogs) (some sampleUsers) ⟨2026, 10, 12⟩
  exact ⟨by decide, h.1 "C1" (by decide), h.2⟩

/-! ## Claim C9 -/

theorem alookup_cons {α : Type} (x : String × α) (l : List (String × α)) (t : String) :
    alookup (x :: l) t = if x.1 == t then some x.2 else alookup l t := by
  by_cases h : (x.1 == t) <;> simp [alookup, List.find?_cons, h]

theorem alookup_updDefaults (row : TableRow) (t : String)
    (acc : List (String × Option CalDate)) :
    alookup (updDefaults acc row) t
      = (alookup acc t).map (fun v =>
          if getCell row "Type" = t then
            match parseDate (getCell row "Due_Date") with
            | some d => some d
            | none => v
          else v) := by
  induction acc with
  | nil => rfl
  | cons p acc ih =>
    have step : updDefaults (p :: acc) row
        = (if p.1 == getCell row "Type" then
            match parseDate (getCell row "Due_Date") with
            | some d => (p.1, some d)
            | none => p
          else p) :: updDefaults acc row := rfl
    rw [step]
    by_cases hp1 : p.1 = getCell row "Type"
    · have hb : (p.1 == getCell row "Type") = true := by simpa using hp1
      cases hpd : parseDate (getCell row "Due_Date") with
      | none =>
        simp only [hb, if_true, hpd]
        rw [alookup_cons, alookup_cons, ih]
        by_cases hpt : p.1 = t
        · have hbt : (p.1 == t) = true := by simpa using hpt
          have hty : getCell row "Type" = t := by rw [← hp1]; exact hpt
          rw [hbt]
          simp [hty, hpd]
        · have hbt : (p.1 == t) = false := by simpa using hpt
          have hty : ¬ getCell row "Type" = t := by rw [← hp1]; exact hpt
          rw [hbt]
          simp [hty, hpd]
      | some d =>
        simp only [hb, if_true, hpd]
        rw [alookup_cons, alookup_cons, ih]
        by_cases hpt : p.1 = t
        · have hbt : (p.1 == t) = true := by simpa using hpt
          have hty : getCell row "Type" = t := by rw [← hp1]; exact hpt
          rw [hbt]
          simp [hty, hpd]
        · have hbt : (p.1 == t) = false := by simpa using hpt
          have hty : ¬ getCell row "Type" = t := by rw [← hp1]; exact hpt
          rw [hbt]
          simp [hty, hpd]
    · have hb : (p.1 == getCell row "Type") = false := by simpa using hp1
      simp only [hb, if_false]
      rw [alookup_cons, alookup_cons, ih]
      by_cases hpt : p.1 = t
      · have hbt : (p.1 == t) = true := by simpa using hpt
        have hty : ¬ getCell row "Type" = t := fun h => hp1 (hpt.trans h.symm)
        rw [hbt]
        simp [hty, hpt]
      · have hbt : (p.1 == t) = false := by simpa using hpt
        rw [hbt]
        simp [hpt]

theorem alookup_foldl_skip (t : String) (rows : List TableRow) :
    ∀ acc : List (String × Option CalDate),
    (∀ r ∈ rows, getCell r "Type" ≠ t) →
    alookup (rows.foldl updDefaults acc) t = alookup acc t := by
  induction rows with
  | nil => intro acc _; rfl
  | cons r rows ih =>
    intro acc hrows
    rw [List.foldl_cons, ih _ (fun r' h => hrows r' (List.mem_cons_of_mem _ h)),
      alookup_updDefaults]
    have hty : ¬ getCell r "Type" = t := hrows r (List.mem_cons_self r rows)
    simp [hty]

theorem alookup_foldl_isSome (t : String) (rows : List TableRow)
    (acc : List (String × Option CalDate))
    (h : (alookup acc t).isSome = true) :
    (alookup (rows.foldl updDefaults acc) t).isSome = true := by
  induction rows generalizing acc with
  | nil => exact h
  | cons r rows ih =>
    rw [List.foldl_cons]
    apply ih
    rw [alookup_updDefaults]
    cases hv : alookup acc t with
    | none => rw [hv] at h; cases h
    | some v => simp

theorem alookup_const_map_isSome (c : Option CalDate) (t : String)
    (l : List String) (h : t ∈ l) :
    (alookup (l.map (fun x => (x, c))) t).isSome = true := by
  induction l with
  | nil => cases h
  | cons a l ih =>
    rw [List.map_cons, alookup_cons]
    by_cases hat : a = t
    · simp [hat]
    · have hb : (a == t) = false := by simpa using hat
      rw [hb]
      simp only [Bool.false_eq_true, if_false]
      rcases List.mem_cons.mp h with h' | h'
      · exact absurd h'.symm hat
      · exact ih h'

/-- Claim C9: when the `Reminders` table has the expected columns and, for
the given center and tracked reminder type, the last matching appended row
carries a well-formed `%Y-%m-%d` due date, the due date displayed as
current is exactly that last row's date — later appended rows override
earlier ones for the same (entity, type) pair. -/
theorem reminders_last_write_wins (df : DataTable) (center t : String)
    (l1 l2 : List TableRow) (r : TableRow) (d : CalDate)
    (hC : "Center" ∈ df.cols) (hT : "Type" ∈ df.cols)
    (ht : t ∈ reminderTypes)
    (hfil : df.rows.filter (fun r' => getCell r' "Center" == center) = l1 ++ r :: l2)
    (htype : getCell r "Type" = t)
    (hparse : parseDate (getCell r "Due_Date") = some d)
    (hlast : ∀ r' ∈ l2, getCell r' "Type" ≠ t) :
    alookup (remindersDefaults (some df) center) t = some (some d) := by
  have hne : df.rows.isEmpty = false := by
    cases h' : df.rows with
    | nil => rw [h'] at hfil; simp at hfil
    | cons a l => rfl
  have hcc : df.cols.contains "Center" = true := by simpa using hC
  have hct : df.cols.contains "Type" = true := by simpa using hT
  simp only [remindersDefaults, hne, hcc, hct, Bool.and_self, Bool.false_eq_true,
    if_false, if_true]
  rw [hfil, List.foldl_append, List.foldl_cons,
    alookup_foldl_skip t l2 _ hlast, alookup_updDefaults]
  have hsome := alookup_foldl_isSome t l1 _
    (alookup_const_map_isSome none t reminderTypes ht)
  cases hv : alookup (List.foldl updDefaults
      (reminderTypes.map (fun x => (x, none))) l1) t with
  | none => rw [hv] at hsome; cases hsome
  | some v => simp [htype, hparse]

/-- Witness for C9: in the sample `Reminders` table, C1's `Rent` due date
was appended twice and the later row (2026-02-02) is the one displayed. -/
theorem reminders_last_write_wins_witness :
    alookup (remindersDefaults (some sampleReminders) "C1") "Rent"
      = some (some ⟨2026, 2, 2⟩) :=
  reminders_last_write_wins sampleReminders "C1" "Rent"
    [[("Center", "C1"), ("Type", "Rent"), ("Due_Date", "2026-01-01"), ("Updated", "2025-12-01")]]
    [] [("Center", "C1"), ("Type", "Rent"), ("Due_Date", "2026-02-02"), ("Updated", "2026-01-05")]
    ⟨2026, 2, 2⟩ (by decide) (by decide) (by decide) (by decide) (by decide) (by decide)
    (by intro r' h; cases h)

/-! ## Claim C10 -/

theorem find?_filter_of_imp {α : Type} (l : List α) (p keep : α → Bool)
    (h : ∀ x, p x = true → keep x = true) :
    (l.filter keep).find? p = l.find? p := by
  induction l with
  | nil => rfl
  | cons a l ih =>
    cases hk : keep a with
    | true =>
      simp only [List.filter_cons, hk, if_true]
      cases hp : p a with
      | true => rw [List.find?_cons_of_pos _ hp, List.find?_cons_of_pos _ hp]
      | false =>
        rw [List.find?_cons_of_neg _ (by simp [hp]), List.find?_cons_of_neg _ (by simp [hp])]
        exact ih
    | false =>
      have hpa : p a = false := by
        cases hp : p a with
        | false => rfl
        | true => rw [h a hp] at hk; cases hk
      simp only [List.filter_cons, hk, Bool.false_eq_true, if_false]
      rw [List.find?_cons_of_neg _ (by simp [hpa])]
      exact ih

theorem flookup_dictUpdate_miss (d new : List (String × FieldVal)) (k : String)
    (h : new.any (fun q' => q'.1 == k) = false) :
    flookup (dictUpdate d new) k = flookup d k := by
  unfold flookup dictUpdate
  rw [List.find?_append]
  have h1 : new.find? (fun p => p.1 == k) = none := by
    rw [List.find?_eq_none]
    intro x hx
    rw [List.any_eq_false] at h
    exact h x hx
  rw [h1]
  have h2 : ((d.filter (fun p => !(new.any (fun q' => q'.1 == p.1)))).find?
      (fun p => p.1 == k)) = d.find? (fun p => p.1 == k) := by
    apply find?_filter_of_imp
    intro x hx
    have hxk : x.1 = k := by simpa using hx
    rw [hxk, h]
    rfl
  rw [h2]
  simp

theorem serverInv_step (base : List (List FieldVal)) (good : String)
    (s : WizState) (e : WizEvent) (he : isNext1 e = false)
    (hrows : ∀ r ∈ s.rows, r ∈ base ∨ r.get? 4 = some (.s good))
    (hdata : s.daily_step = 1 ∨ flookup s.daily_data "server_shutdown" = some (.s good)) :
    (∀ r ∈ (wizStep s e).rows, r ∈ base ∨ r.get? 4 = some (.s good)) ∧
    ((wizStep s e).daily_step = 1 ∨
      flookup (wizStep s e).daily_data "server_shutdown" = some (.s good)) := by
  cases e with
  | next1 a b c => simp [isNext1] at he
  | next2 a b c d =>
    by_cases h2 : s.daily_step = 2
    · have hb : (s.daily_step == 2) = true := by simpa using h2
      simp only [wizStep, hb, if_true]
      refine ⟨hrows, Or.inr ?_⟩
      rw [flookup_dictUpdate_miss _ _ _ (by simp)]
      rcases hdata with h1 | hfl
      · exfalso; omega
      · exact hfl
    · have hb : (s.daily_step == 2) = false := by simpa using h2
      simp only [wizStep, hb, Bool.false_eq_true, if_false]
      exact ⟨hrows, hdata⟩
  | next3 a b c d e' f g h i =>
    by_cases h3 : s.daily_step = 3
    · have hb : (s.daily_step == 3) = true := by simpa using h3
      simp only [wizStep, hb, if_true]
      refine ⟨hrows, Or.inr ?_⟩
      rw [flookup_dictUpdate_miss _ _ _ (by simp)]
      rcases hdata with h1 | hfl
      · exfalso; omega
      · exact hfl
    · have hb : (s.daily_step == 3) = false := by simpa using h3
      simp only [wizStep, hb, Bool.false_eq_true, if_false]
      exact ⟨hrows, hdata⟩
  | back fromStep =>
    by_cases hc : (s.daily_step == fromStep
        && (fromStep == 2 || fromStep == 3 || fromStep == 4)) = true
    · simp only [wizStep, hc, if_true]
      refine ⟨hrows, ?_⟩
      rcases hdata with h1 | hfl
      · exfalso
        rw [Bool.and_eq_true] at hc
        have hfs : s.daily_step = fromStep := by simpa using hc.1
        have h' : (fromStep = 2 ∨ fromStep = 3) ∨ fromStep = 4 := by simpa using hc.2
        rcases h' with (h' | h') | h' <;> omega
      · exact Or.inr hfl
    · have hb : (s.daily_step == fromStep
          && (fromStep == 2 || fromStep == 3 || fromStep == 4)) = false := by
        simpa using hc
      simp only [wizStep, hb, Bool.false_eq_true, if_false]
      exact ⟨hrows, hdata⟩
  | submitEv tot np wp rv notes ts u c wok =>
    by_cases h4 : s.daily_step = 4
    · have hb : (s.daily_step == 4) = true := by simpa using h4
      cases wok with
      | false =>
        simp only [wizStep, hb, if_true, Bool.false_eq_true, if_false]
        exact ⟨hrows, hdata⟩
      | true =>
        simp only [wizStep, hb, if_true]
        constructor
        · intro r hr
          rw [List.mem_append] at hr
          rcases hr with hr | hr
          · exact hrows r hr
          · right
            rw [List.mem_singleton] at hr
            subst hr
            have hfl : flookup s.daily_data "server_shutdown" = some (.s good) := by
              rcases hdata with h1 | hfl
              · exfalso; omega
              · exact hfl
            have hget : (buildRow s.daily_data tot np wp rv notes ts u c).get? 4
                = some (dget s.daily_data "server_shutdown" (.s "N/A")) := rfl
            rw [hget]
            simp [dget, hfl]
        · left; trivial
    · have hb : (s.daily_step == 4) = false := by simpa using h4
      simp only [wizStep, hb, Bool.false_eq_true, if_false]
      exact ⟨hrows, hdata⟩

theorem serverInv_run (base : List (List FieldVal)) (good : String) :
    ∀ (es : List WizEvent) (s : WizState),
    (∀ e ∈ es, isNext1 e = false) →
    (∀ r ∈ s.rows, r ∈ base ∨ r.get? 4 = some (.s good)) →
    (s.daily_step = 1 ∨ flookup s.daily_data "server_shutdown" = some (.s good)) →
    ∀ r ∈ (wizRun s es).rows, r ∈ base ∨ r.get? 4 = some (.s good) := by
  intro es
  induction es with
  | nil => intro s _ hrows _; exact hrows
  | cons e es ih =>
    intro s hes hrows hdata
    have hstep := serverInv_step base good s e
      (hes e (List.mem_cons_self e es)) hrows hdata
    exact ih (wizStep s e) (fun e' h => hes e' (List.mem_cons_of_mem _ h))
      hstep.1 hstep.2

/-- Claim C10: starting at step 1, after the step-1 `Next` records the
holiday flag reported by the calendar resolver and the shutdown checkbox,
every row the wizard subsequently appends (before any further step-1
`Next`) carries `"N/A"` in the server-shutdown column whenever the
resolver reported no holiday — regardless of the checkbox — and
`"YES"`/`"NO"` according to the checkbox when it reported a holiday. -/
theorem daily_row_server_shutdown_field (s : WizState) (hs : s.daily_step = 1)
    (is_holiday offline_cb server_cb : Bool) (es : List WizEvent)
    (hes : ∀ e ∈ es, isNext1 e = false) (r : List FieldVal)
    (hr : r ∈ (wizRun (wizStep s (.next1 is_holiday offline_cb server_cb)) es).rows)
    (hnew : r ∉ s.rows) :
    r.get? 4 = some (.s (if is_holiday then (if server_cb then "YES" else "NO")
      else "N/A")) := by
  have hb : (s.daily_step == 1) = true := by simpa using hs
  have h1 : wizStep s (.next1 is_holiday offline_cb server_cb)
      = { s with
          daily_step := 2
          daily_data := dictUpdate s.daily_data
            [("offline_backup", .s (if offline_cb then "YES" else "NO")),
             ("server_shutdown", .s (serverVal is_holiday server_cb))] } := by
    simp only [wizStep, hb, if_true]
  have hdata1 : flookup (wizStep s (.next1 is_holiday offline_cb server_cb)).daily_data
      "server_shutdown"
      = some (.s (if is_holiday then (if server_cb then "YES" else "NO") else "N/A")) := by
    rw [h1, ← serverVal_eq]
    simp [flookup, dictUpdate, List.find?_append, List.find?]
  have hrows1 : ∀ r' ∈ (wizStep s (.next1 is_holiday offline_cb server_cb)).rows,
      r' ∈ s.rows ∨ r'.get? 4 = some (.s (if is_holiday then
        (if server_cb then "YES" else "NO") else "N/A")) := by
    rw [h1]
    intro r' h
    exact Or.inl h
  have := serverInv_run s.rows
    (if is_holiday then (if server_cb then "YES" else "NO") else "N/A") es
    (wizStep s (.next1 is_holiday offline_cb server_cb)) hes hrows1
    (Or.inr hdata1) r hr
  rcases this with h | h
  · exact absurd h hnew
  · exact h

/-- Witness for C10: a full concrete run (holiday reported, checkbox
ticked) appends one row whose server-shutdown column is `"YES"`. -/
theorem daily_row_server_shutdown_field_witness :
    (((wizRun (wizStep initWiz (.next1 true true true))
        [.next2 1 2 3 4, .next3 1 1 1 1 1 1 1 1 1,
         .submitEv 9 8 7 6 "note" "2026-10-12 20:30:00" "a" "C1" true]).rows.getD 0 []).get? 4
      = some (.s "YES")) := by
  have h := daily_row_server_shutdown_field initWiz rfl true true true
    [.next2 1 2 3 4, .next3 1 1 1 1 1 1 1 1 1,
     .submitEv 9 8 7 6 "note" "2026-10-12 20:30:00" "a" "C1" true]
    (by decide)
    ((wizRun (wizStep initWiz (.next1 true true true))
        [.next2 1 2 3 4, .next3 1 1 1 1 1 1 1 1 1,
         .submitEv 9 8 7 6 "note" "2026-10-12 20:30:00" "a" "C1" true]).rows.getD 0 [])
    (by decide) (by decide)
  simpa using h

end ClinicOps
